import Mathlib

/-!
Verification of the `adexchangeseller` generated API client and the vendored
govmomi `Datastore` fragment, via a shallow embedding of the Go source.
-/

namespace AdExchange

/-!
Go `map[string]V` is modelled as an association list with unique keys.
`mapSet` is Go map assignment (`m[k] = v`): it replaces an existing binding
or appends a fresh one.  The same model serves `url.Values` together with its
`Set` method (each value in this client is a single string).
-/

/-- Go map assignment `m[k] = v`: remove any existing binding for `k`, then bind `k` to `v`. -/
def mapSet (m : List (String × α)) (k : String) (v : α) : List (String × α) :=
  m.filter (fun p => !(p.1 == k)) ++ [(k, v)]

/-- Go map read `m[k]` (the value, when present). -/
def mapLookup : List (String × α) → String → Option α
  | [], _ => none
  | p :: t, k => if p.1 == k then some p.2 else mapLookup t k

/-- Go map membership test `_, ok := m[k]`. -/
def mapContains (m : List (String × α)) (k : String) : Bool :=
  (mapLookup m k).isSome

/-!
Values stored in a call object's `opt_ map[string]interface{}` bag.  The
generated client only ever stores `int64`, `string` and `bool` values there,
and serializes them with `fmt.Sprintf("%v", v)`.
-/

inductive GoValue where
  | int (i : Int)
  | str (s : String)
  | bool (b : Bool)
deriving DecidableEq, Repr

/-- Go `fmt.Sprintf("%v", v)` on the values the client stores in `opt_`. -/
def formatV : GoValue → String
  | .int i => toString i
  | .str s => s
  | .bool b => if b then "true" else "false"

/-!
JSON bodies are modelled at the level of parsed JSON values (`encoding/json`'s
value space): the wire syntax itself is out of scope.  Go object keys are
unique in everything this client encodes or receives from its own encoder.
-/

inductive Json where
  | null
  | bool (b : Bool)
  | num (n : Int)
  | str (s : String)
  | arr (elems : List Json)
  | obj (fields : List (String × Json))

/-- Decode each element of a JSON array (Go decodes slices elementwise,
failing the whole decode on the first bad element). -/
def decodeList (f : Json → Option β) : List Json → Option (List β)
  | [] => some []
  | j :: t => do
    let b ← f j
    let bs ← decodeList f t
    some (b :: bs)

namespace Json

/-- Go `json.Unmarshal` of a JSON value into a `string` struct field:
absent fields keep the zero value, `null` is a no-op (zero value stays). -/
def getStringField (fs : List (String × Json)) (k : String) : Option String :=
  match mapLookup fs k with
  | none => some ""
  | some .null => some ""
  | some (.str s) => some s
  | some _ => none

/-- Go `json.Unmarshal` of a JSON value into a `bool` struct field. -/
def getBoolField (fs : List (String × Json)) (k : String) : Option Bool :=
  match mapLookup fs k with
  | none => some false
  | some .null => some false
  | some (.bool b) => some b
  | some _ => none

/-- Go `json.Unmarshal` of a JSON array element into a `string`. -/
def getCellString : Json → Option String
  | .str s => some s
  | .null => some ""
  | _ => none

/-- Go `json.Unmarshal` of a JSON value into a `[]string` field. -/
def getStringArray : Json → Option (List String)
  | .null => some []
  | .arr es => decodeList getCellString es
  | _ => none

/-- Go `json.Unmarshal` of a JSON value into a `[]string` struct field
(absent field keeps the nil slice). -/
def getStringArrayField (fs : List (String × Json)) (k : String) : Option (List String) :=
  match mapLookup fs k with
  | none => some []
  | some j => getStringArray j

end Json

/-!
googleapi response model.  Only `googleapi.ServerResponse` is declared in the
source under `src/`; the helpers below carry `Modelled from the spec:` notes.
-/

/-- googleapi.ServerResponse: the HTTP response code and headers from the server. -/
structure ServerResponse where
  httpStatusCode : Nat
  header : List (String × String)
deriving DecidableEq, Repr

/-- An `*http.Response` as far as the client inspects it: status code, headers,
and the (parsed) JSON body. -/
structure HttpResponse where
  statusCode : Nat
  header : List (String × String)
  body : Json

/-- The outcome of `doRequest` (Go's `http.Client.Do` contract: exactly one of
the response and the error is non-nil). -/
inductive TransportOutcome where
  | response (res : HttpResponse)
  | failure (err : String)

/-- The errors a call's `Do` can return. -/
inductive CallError where
  /-- a `*googleapi.Error`: HTTP code, response headers, and the body when it was read. -/
  | apiError (code : Nat) (header : List (String × String)) (body : Option Json)
  /-- a transport-level error: no HTTP response was received. -/
  | transportError (err : String)
  /-- a JSON decode error on a 2xx body. -/
  | decodeError

/-- Modelled from the spec: `googleapi.CheckResponse` returns nil for a 2xx
status and otherwise a `*googleapi.Error` carrying status code, headers, and
the error body. -/
def checkResponse (res : HttpResponse) : Option CallError :=
  if 200 ≤ res.statusCode ∧ res.statusCode ≤ 299 then none
  else some (.apiError res.statusCode res.header (some res.body))

/-- Modelled from the spec: `googleapi.CheckMediaResponse` returns nil for a
2xx status and otherwise a `*googleapi.Error` carrying status code and body. -/
def checkMediaResponse (res : HttpResponse) : Option CallError :=
  if 200 ≤ res.statusCode ∧ res.statusCode ≤ 299 then none
  else some (.apiError res.statusCode res.header (some res.body))

/-- What a call's `Do` returns, together with whether the call closed the HTTP
response body before returning (`true` also when there was no body at all). -/
structure DoOut (α : Type) where
  result : Option α
  error : Option CallError
  bodyClosed : Bool

/-!
Resource structs (from the source; `json:"-"` fields are not serialized).
Go pointer fields/elements are modelled with `Option`.
-/

/-- type AdClient. -/
structure AdClient where
  arcOptIn : Bool
  id : String
  kind : String
  productCode : String
  supportsReporting : Bool
  forceSendFields : List String
deriving DecidableEq, Repr

/-- type AdClients. -/
structure AdClients where
  etag : String
  items : List (Option AdClient)
  kind : String
  nextPageToken : String
  serverResponse : ServerResponse
  forceSendFields : List String
deriving DecidableEq, Repr

/-- json.Unmarshal of an object into an `AdClient` struct. -/
def decodeAdClient (j : Json) : Option AdClient :=
  match j with
  | .obj fs => do
    let arcOptIn ← Json.getBoolField fs "arcOptIn"
    let id ← Json.getStringField fs "id"
    let kind ← Json.getStringField fs "kind"
    let productCode ← Json.getStringField fs "productCode"
    let supportsReporting ← Json.getBoolField fs "supportsReporting"
    some { arcOptIn, id, kind, productCode, supportsReporting, forceSendFields := [] }
  | _ => none

/-- json.Unmarshal into a `*AdClient` slice element (`null` yields a nil pointer). -/
def decodeAdClientPtr (j : Json) : Option (Option AdClient) :=
  match j with
  | .null => some none
  | _ => (decodeAdClient j).map some

/-- json.Unmarshal of an object into an `AdClients` struct (fields tagged
`json:"-"` — ServerResponse, ForceSendFields — are untouched, i.e. zero). -/
def decodeAdClients (j : Json) : Option AdClients :=
  match j with
  | .obj fs => do
    let etag ← Json.getStringField fs "etag"
    let items ← (match mapLookup fs "items" with
      | none => some []
      | some .null => some []
      | some (.arr es) => decodeList decodeAdClientPtr es
      | some _ => none)
    let kind ← Json.getStringField fs "kind"
    let nextPageToken ← Json.getStringField fs "nextPageToken"
    some { etag, items, kind, nextPageToken,
           serverResponse := ⟨0, []⟩, forceSendFields := [] }
  | _ => none

/-- `json.NewDecoder(res.Body).Decode(&ret)` where `ret` is a `*AdClients`:
decoding the JSON literal `null` into the pointer sets the pointer itself to
nil (so `Do` then returns a nil result alongside a nil error). -/
def decodeAdClientsPtr (j : Json) : Option (Option AdClients) :=
  match j with
  | .null => some none
  | _ => (decodeAdClients j).map some

/-!
gensupport.MarshalJSON, modelled from the `ForceSendFields` contract stated in
the source: by default a field with an empty value is omitted (`omitempty`),
but a field named in ForceSendFields is emitted even when empty.
-/

/-- Emit a string field under `omitempty` + ForceSendFields. -/
def emitStr (force : List String) (goName jsonKey : String) (v : String) : List (String × Json) :=
  if v ≠ "" ∨ force.contains goName then [(jsonKey, .str v)] else []

/-- Emit a bool field under `omitempty` + ForceSendFields. -/
def emitBool (force : List String) (goName jsonKey : String) (v : Bool) : List (String × Json) :=
  if v = true ∨ force.contains goName then [(jsonKey, .bool v)] else []

/-- AdClient.MarshalJSON via gensupport.MarshalJSON. -/
def encodeAdClient (a : AdClient) : Json :=
  .obj (emitBool a.forceSendFields "ArcOptIn" "arcOptIn" a.arcOptIn
    ++ emitStr a.forceSendFields "Id" "id" a.id
    ++ emitStr a.forceSendFields "Kind" "kind" a.kind
    ++ emitStr a.forceSendFields "ProductCode" "productCode" a.productCode
    ++ emitBool a.forceSendFields "SupportsReporting" "supportsReporting" a.supportsReporting)

/-- json.Marshal of a `*AdClient` slice element (nil pointer marshals to null). -/
def encodeAdClientPtr : Option AdClient → Json
  | none => .null
  | some a => encodeAdClient a

/-- AdClients.MarshalJSON via gensupport.MarshalJSON (`json:"-"` fields —
ServerResponse, ForceSendFields — are never serialized). -/
def encodeAdClients (c : AdClients) : Json :=
  .obj (emitStr c.forceSendFields "Etag" "etag" c.etag
    ++ (if c.items ≠ [] ∨ c.forceSendFields.contains "Items"
        then [("items", .arr (c.items.map encodeAdClientPtr))] else [])
    ++ emitStr c.forceSendFields "Kind" "kind" c.kind
    ++ emitStr c.forceSendFields "NextPageToken" "nextPageToken" c.nextPageToken)

/-- type AdUnit. -/
structure AdUnit where
  code : String
  id : String
  kind : String
  name : String
  status : String
  serverResponse : ServerResponse
  forceSendFields : List String
deriving DecidableEq, Repr

/-- type AdUnits. -/
structure AdUnits where
  etag : String
  items : List (Option AdUnit)
  kind : String
  nextPageToken : String
  serverResponse : ServerResponse
  forceSendFields : List String
deriving DecidableEq, Repr

/-- json.Unmarshal of an object into an `AdUnit` struct. -/
def decodeAdUnit (j : Json) : Option AdUnit :=
  match j with
  | .obj fs => do
    let code ← Json.getStringField fs "code"
    let id ← Json.getStringField fs "id"
    let kind ← Json.getStringField fs "kind"
    let name ← Json.getStringField fs "name"
    let status ← Json.getStringField fs "status"
    some { code, id, kind, name, status, serverResponse := ⟨0, []⟩, forceSendFields := [] }
  | _ => none

/-- json.Unmarshal into a `*AdUnit` slice element (`null` yields a nil pointer). -/
def decodeAdUnitPtr (j : Json) : Option (Option AdUnit) :=
  match j with
  | .null => some none
  | _ => (decodeAdUnit j).map some

/-- json.Unmarshal of an object into an `AdUnits` struct. -/
def decodeAdUnits (j : Json) : Option AdUnits :=
  match j with
  | .obj fs => do
    let etag ← Json.getStringField fs "etag"
    let items ← (match mapLookup fs "items" with
      | none => some []
      | some .null => some []
      | some (.arr es) => decodeList decodeAdUnitPtr es
      | some _ => none)
    let kind ← Json.getStringField fs "kind"
    let nextPageToken ← Json.getStringField fs "nextPageToken"
    some { etag, items, kind, nextPageToken,
           serverResponse := ⟨0, []⟩, forceSendFields := [] }
  | _ => none

/-- `Decode(&ret)` where `ret` is a `*AdUnits` (JSON `null` sets the pointer to nil). -/
def decodeAdUnitsPtr (j : Json) : Option (Option AdUnits) :=
  match j with
  | .null => some none
  | _ => (decodeAdUnits j).map some

/-- type ReportHeaders. -/
structure ReportHeaders where
  currency : String
  name : String
  type : String
  forceSendFields : List String
deriving DecidableEq, Repr

/-- type Report. -/
structure Report where
  averages : List String
  headers : List (Option ReportHeaders)
  kind : String
  rows : List (List String)
  totalMatchedRows : Int
  totals : List String
  warnings : List String
  serverResponse : ServerResponse
  forceSendFields : List String
deriving DecidableEq, Repr

/-- json.Unmarshal of an object into a `ReportHeaders` struct. -/
def decodeReportHeaders (j : Json) : Option ReportHeaders :=
  match j with
  | .obj fs => do
    let currency ← Json.getStringField fs "currency"
    let name ← Json.getStringField fs "name"
    let type ← Json.getStringField fs "type"
    some { currency, name, type, forceSendFields := [] }
  | _ => none

/-- json.Unmarshal into a `*ReportHeaders` slice element. -/
def decodeReportHeadersPtr (j : Json) : Option (Option ReportHeaders) :=
  match j with
  | .null => some none
  | _ => (decodeReportHeaders j).map some

/-- json.Unmarshal of a JSON value into a `[][]string` field. -/
def decodeRows (j : Json) : Option (List (List String)) :=
  match j with
  | .null => some []
  | .arr es => decodeList Json.getStringArray es
  | _ => none

/-- json.Unmarshal of an `int64` field tagged `,string`: the JSON value must be
a string holding the decimal number (`strconv.ParseInt` semantics). -/
def getInt64StringField (fs : List (String × Json)) (k : String) : Option Int :=
  match mapLookup fs k with
  | none => some 0
  | some .null => some 0
  | some (.str s) => s.toInt?
  | some _ => none

/-- json.Unmarshal of an object into a `Report` struct. -/
def decodeReport (j : Json) : Option Report :=
  match j with
  | .obj fs => do
    let averages ← Json.getStringArrayField fs "averages"
    let headers ← (match mapLookup fs "headers" with
      | none => some []
      | some .null => some []
      | some (.arr es) => decodeList decodeReportHeadersPtr es
      | some _ => none)
    let kind ← Json.getStringField fs "kind"
    let rows ← (match mapLookup fs "rows" with
      | none => some []
      | some j => decodeRows j)
    let totalMatchedRows ← getInt64StringField fs "totalMatchedRows"
    let totals ← Json.getStringArrayField fs "totals"
    let warnings ← Json.getStringArrayField fs "warnings"
    some { averages, headers, kind, rows, totalMatchedRows, totals, warnings,
           serverResponse := ⟨0, []⟩, forceSendFields := [] }
  | _ => none

/-- `Decode(&ret)` where `ret` is a `*Report` (JSON `null` sets the pointer to nil). -/
def decodeReportPtr (j : Json) : Option (Option Report) :=
  match j with
  | .null => some none
  | _ => (decodeReport j).map some

/-!
Call objects.  Each carries the `opt_` bag of optional modifiers; the
`doRequest` query assembly is modelled by `doRequestParams` (the `url.Values`
the request URL is built from), and `Do` by `doCall`, a function of the
transport outcome `doRequest` produced.
-/

/-- Go's repeated `if v, ok := c.opt_[key]; ok { params.Set(key, fmt.Sprintf("%v", v)) }`. -/
def setIfPresent (params : List (String × String)) (opt : List (String × GoValue))
    (key : String) : List (String × String) :=
  match mapLookup opt key with
  | some v => mapSet params key (formatV v)
  | none => params

/-- type AdclientsListCall (the service and context fields are not modelled). -/
structure AdclientsListCall where
  opt_ : List (String × GoValue)

/-- AdclientsService.List. -/
def AdclientsService.listCall : AdclientsListCall := { opt_ := [] }

/-- AdclientsListCall.MaxResults. -/
def AdclientsListCall.MaxResults (c : AdclientsListCall) (maxResults : Int) : AdclientsListCall :=
  { opt_ := mapSet c.opt_ "maxResults" (.int maxResults) }

/-- AdclientsListCall.PageToken. -/
def AdclientsListCall.PageToken (c : AdclientsListCall) (pageToken : String) : AdclientsListCall :=
  { opt_ := mapSet c.opt_ "pageToken" (.str pageToken) }

/-- AdclientsListCall.Fields (the combined field mask). -/
def AdclientsListCall.Fields (c : AdclientsListCall) (s : String) : AdclientsListCall :=
  { opt_ := mapSet c.opt_ "fields" (.str s) }

/-- AdclientsListCall.IfNoneMatch. -/
def AdclientsListCall.IfNoneMatch (c : AdclientsListCall) (entityTag : String) : AdclientsListCall :=
  { opt_ := mapSet c.opt_ "ifNoneMatch" (.str entityTag) }

/-- The query parameters AdclientsListCall.doRequest serializes into the URL
(`ifNoneMatch` travels as a request header, not a query parameter). -/
def AdclientsListCall.doRequestParams (c : AdclientsListCall) (alt : String) :
    List (String × String) :=
  let params := mapSet ([] : List (String × String)) "alt" alt
  let params := setIfPresent params c.opt_ "maxResults"
  let params := setIfPresent params c.opt_ "pageToken"
  let params := setIfPresent params c.opt_ "fields"
  params

/-- AdclientsListCall.Do, as a function of the transport outcome of doRequest. -/
def AdclientsListCall.doCall (outcome : TransportOutcome) : DoOut AdClients :=
  match outcome with
  | .response res =>
    if res.statusCode = 304 then
      { result := none, error := some (.apiError res.statusCode res.header none),
        bodyClosed := true }
    else
      match checkResponse res with
      | some e => { result := none, error := some e, bodyClosed := true }
      | none =>
        match decodeAdClientsPtr res.body with
        | none => { result := none, error := some .decodeError, bodyClosed := true }
        | some none => { result := none, error := none, bodyClosed := true }
        | some (some ret) =>
          { result := some { ret with serverResponse := ⟨res.statusCode, res.header⟩ },
            error := none, bodyClosed := true }
  | .failure e => { result := none, error := some (.transportError e), bodyClosed := true }

/-- type AdunitsListCall. -/
structure AdunitsListCall where
  adClientId : String
  opt_ : List (String × GoValue)

/-- AdunitsService.List. -/
def AdunitsService.listCall (adClientId : String) : AdunitsListCall :=
  { adClientId, opt_ := [] }

/-- AdunitsListCall.IncludeInactive. -/
def AdunitsListCall.IncludeInactive (c : AdunitsListCall) (includeInactive : Bool) : AdunitsListCall :=
  { c with opt_ := mapSet c.opt_ "includeInactive" (.bool includeInactive) }

/-- AdunitsListCall.MaxResults. -/
def AdunitsListCall.MaxResults (c : AdunitsListCall) (maxResults : Int) : AdunitsListCall :=
  { c with opt_ := mapSet c.opt_ "maxResults" (.int maxResults) }

/-- AdunitsListCall.PageToken. -/
def AdunitsListCall.PageToken (c : AdunitsListCall) (pageToken : String) : AdunitsListCall :=
  { c with opt_ := mapSet c.opt_ "pageToken" (.str pageToken) }

/-- AdunitsListCall.Fields. -/
def AdunitsListCall.Fields (c : AdunitsListCall) (s : String) : AdunitsListCall :=
  { c with opt_ := mapSet c.opt_ "fields" (.str s) }

/-- AdunitsListCall.IfNoneMatch. -/
def AdunitsListCall.IfNoneMatch (c : AdunitsListCall) (entityTag : String) : AdunitsListCall :=
  { c with opt_ := mapSet c.opt_ "ifNoneMatch" (.str entityTag) }

/-- The query parameters AdunitsListCall.doRequest serializes into the URL. -/
def AdunitsListCall.doRequestParams (c : AdunitsListCall) (alt : String) :
    List (String × String) :=
  let params := mapSet ([] : List (String × String)) "alt" alt
  let params := setIfPresent params c.opt_ "includeInactive"
  let params := setIfPresent params c.opt_ "maxResults"
  let params := setIfPresent params c.opt_ "pageToken"
  let params := setIfPresent params c.opt_ "fields"
  params

/-- AdunitsListCall.Do, as a function of the transport outcome of doRequest. -/
def AdunitsListCall.doCall (outcome : TransportOutcome) : DoOut AdUnits :=
  match outcome with
  | .response res =>
    if res.statusCode = 304 then
      { result := none, error := some (.apiError res.statusCode res.header none),
        bodyClosed := true }
    else
      match checkResponse res with
      | some e => { result := none, error := some e, bodyClosed := true }
      | none =>
        match decodeAdUnitsPtr res.body with
        | none => { result := none, error := some .decodeError, bodyClosed := true }
        | some none => { result := none, error := none, bodyClosed := true }
        | some (some ret) =>
          { result := some { ret with serverResponse := ⟨res.statusCode, res.header⟩ },
            error := none, bodyClosed := true }
  | .failure e => { result := none, error := some (.transportError e), bodyClosed := true }

/-- type ReportsGenerateCall. -/
structure ReportsGenerateCall where
  startDate : String
  endDate : String
  opt_ : List (String × GoValue)

/-- ReportsService.Generate. -/
def ReportsService.generateCall (startDate endDate : String) : ReportsGenerateCall :=
  { startDate, endDate, opt_ := [] }

/-- ReportsGenerateCall.Dimension. -/
def ReportsGenerateCall.Dimension (c : ReportsGenerateCall) (dimension : String) : ReportsGenerateCall :=
  { c with opt_ := mapSet c.opt_ "dimension" (.str dimension) }

/-- ReportsGenerateCall.Filter. -/
def ReportsGenerateCall.Filter (c : ReportsGenerateCall) (filter : String) : ReportsGenerateCall :=
  { c with opt_ := mapSet c.opt_ "filter" (.str filter) }

/-- ReportsGenerateCall.Locale. -/
def ReportsGenerateCall.Locale (c : ReportsGenerateCall) (locale : String) : ReportsGenerateCall :=
  { c with opt_ := mapSet c.opt_ "locale" (.str locale) }

/-- ReportsGenerateCall.MaxResults. -/
def ReportsGenerateCall.MaxResults (c : ReportsGenerateCall) (maxResults : Int) : ReportsGenerateCall :=
  { c with opt_ := mapSet c.opt_ "maxResults" (.int maxResults) }

/-- ReportsGenerateCall.Metric. -/
def ReportsGenerateCall.Metric (c : ReportsGenerateCall) (metric : String) : ReportsGenerateCall :=
  { c with opt_ := mapSet c.opt_ "metric" (.str metric) }

/-- ReportsGenerateCall.Sort. -/
def ReportsGenerateCall.Sort (c : ReportsGenerateCall) (sort : String) : ReportsGenerateCall :=
  { c with opt_ := mapSet c.opt_ "sort" (.str sort) }

/-- ReportsGenerateCall.StartIndex. -/
def ReportsGenerateCall.StartIndex (c : ReportsGenerateCall) (startIndex : Int) : ReportsGenerateCall :=
  { c with opt_ := mapSet c.opt_ "startIndex" (.int startIndex) }

/-- ReportsGenerateCall.Fields. -/
def ReportsGenerateCall.Fields (c : ReportsGenerateCall) (s : String) : ReportsGenerateCall :=
  { c with opt_ := mapSet c.opt_ "fields" (.str s) }

/-- ReportsGenerateCall.IfNoneMatch. -/
def ReportsGenerateCall.IfNoneMatch (c : ReportsGenerateCall) (entityTag : String) : ReportsGenerateCall :=
  { c with opt_ := mapSet c.opt_ "ifNoneMatch" (.str entityTag) }

/-- The query parameters ReportsGenerateCall.doRequest serializes into the URL
(`startDate` and `endDate` are required and always set). -/
def ReportsGenerateCall.doRequestParams (c : ReportsGenerateCall) (alt : String) :
    List (String × String) :=
  let params := mapSet ([] : List (String × String)) "alt" alt
  let params := mapSet params "endDate" c.endDate
  let params := mapSet params "startDate" c.startDate
  let params := setIfPresent params c.opt_ "dimension"
  let params := setIfPresent params c.opt_ "filter"
  let params := setIfPresent params c.opt_ "locale"
  let params := setIfPresent params c.opt_ "maxResults"
  let params := setIfPresent params c.opt_ "metric"
  let params := setIfPresent params c.opt_ "sort"
  let params := setIfPresent params c.opt_ "startIndex"
  let params := setIfPresent params c.opt_ "fields"
  params

/-- ReportsGenerateCall.Download: fetches the raw media response; on success
the still-open body is handed to the caller, on a media-check failure the body
is closed. -/
def ReportsGenerateCall.download (outcome : TransportOutcome) :
    Option HttpResponse × Option CallError × Bool :=
  match outcome with
  | .failure e => (none, some (.transportError e), true)
  | .response res =>
    match checkMediaResponse res with
    | some e => (none, some e, true)
    | none => (some res, none, false)

/-- ReportsGenerateCall.Do, as a function of the transport outcome of doRequest. -/
def ReportsGenerateCall.doCall (outcome : TransportOutcome) : DoOut Report :=
  match outcome with
  | .response res =>
    if res.statusCode = 304 then
      { result := none, error := some (.apiError res.statusCode res.header none),
        bodyClosed := true }
    else
      match checkResponse res with
      | some e => { result := none, error := some e, bodyClosed := true }
      | none =>
        match decodeReportPtr res.body with
        | none => { result := none, error := some .decodeError, bodyClosed := true }
        | some none => { result := none, error := none, bodyClosed := true }
        | some (some ret) =>
          { result := some { ret with serverResponse := ⟨res.statusCode, res.header⟩ },
            error := none, bodyClosed := true }
  | .failure e => { result := none, error := some (.transportError e), bodyClosed := true }

/-- type ReportsSavedGenerateCall. -/
structure ReportsSavedGenerateCall where
  savedReportId : String
  opt_ : List (String × GoValue)

/-- ReportsSavedService.Generate. -/
def ReportsSavedService.generateCall (savedReportId : String) : ReportsSavedGenerateCall :=
  { savedReportId, opt_ := [] }

/-- ReportsSavedGenerateCall.Do, as a function of the transport outcome of
doRequest (identical post-transport logic to ReportsGenerateCall.Do). -/
def ReportsSavedGenerateCall.doCall (outcome : TransportOutcome) : DoOut Report :=
  match outcome with
  | .response res =>
    if res.statusCode = 304 then
      { result := none, error := some (.apiError res.statusCode res.header none),
        bodyClosed := true }
    else
      match checkResponse res with
      | some e => { result := none, error := some e, bodyClosed := true }
      | none =>
        match decodeReportPtr res.body with
        | none => { result := none, error := some .decodeError, bodyClosed := true }
        | some none => { result := none, error := none, bodyClosed := true }
        | some (some ret) =>
          { result := some { ret with serverResponse := ⟨res.statusCode, res.header⟩ },
            error := none, bodyClosed := true }
  | .failure e => { result := none, error := some (.transportError e), bodyClosed := true }

/-!
Service construction (func New and the NewXxxService constructors).
Go pointer fields are `Option`; the sub-services' back-pointer to the parent
`Service` is not modelled (it carries no data the claims inspect).
-/

/-- An opaque `*http.Client` value (only nil-ness matters to `New`). -/
structure HttpClient where
deriving Inhabited

/-- const basePath. -/
def basePath : String := "https://www.googleapis.com/adexchangeseller/v1/"

/-- type AdclientsService. -/
structure AdclientsService where
deriving Inhabited

/-- type AdunitsCustomchannelsService. -/
structure AdunitsCustomchannelsService where
deriving Inhabited

/-- type AdunitsService. -/
structure AdunitsService where
  customchannels : Option AdunitsCustomchannelsService

/-- type CustomchannelsAdunitsService. -/
structure CustomchannelsAdunitsService where
deriving Inhabited

/-- type CustomchannelsService. -/
structure CustomchannelsService where
  adunits : Option CustomchannelsAdunitsService

/-- type ReportsSavedService. -/
structure ReportsSavedService where
deriving Inhabited

/-- type ReportsService. -/
structure ReportsService where
  saved : Option ReportsSavedService

/-- type UrlchannelsService. -/
structure UrlchannelsService where
deriving Inhabited

/-- func NewAdclientsService. -/
def NewAdclientsService : AdclientsService := {}

/-- func NewAdunitsCustomchannelsService. -/
def NewAdunitsCustomchannelsService : AdunitsCustomchannelsService := {}

/-- func NewAdunitsService (wires its nested Customchannels sub-service). -/
def NewAdunitsService : AdunitsService :=
  { customchannels := some NewAdunitsCustomchannelsService }

/-- func NewCustomchannelsAdunitsService. -/
def NewCustomchannelsAdunitsService : CustomchannelsAdunitsService := {}

/-- func NewCustomchannelsService (wires its nested Adunits sub-service). -/
def NewCustomchannelsService : CustomchannelsService :=
  { adunits := some NewCustomchannelsAdunitsService }

/-- func NewReportsSavedService. -/
def NewReportsSavedService : ReportsSavedService := {}

/-- func NewReportsService (wires its nested Saved sub-service). -/
def NewReportsService : ReportsService :=
  { saved := some NewReportsSavedService }

/-- func NewUrlchannelsService. -/
def NewUrlchannelsService : UrlchannelsService := {}

/-- type Service. -/
structure Service where
  client : HttpClient
  basePath : String
  userAgent : String
  adclients : Option AdclientsService
  adunits : Option AdunitsService
  customchannels : Option CustomchannelsService
  reports : Option ReportsService
  urlchannels : Option UrlchannelsService

/-- func New: returns `(*Service, error)` as the Go pair of nilable values. -/
def New (client : Option HttpClient) : Option Service × Option String :=
  match client with
  | none => (none, some "client is nil")
  | some cl =>
    (some { client := cl, basePath := AdExchange.basePath, userAgent := "",
            adclients := some NewAdclientsService,
            adunits := some NewAdunitsService,
            customchannels := some NewCustomchannelsService,
            reports := some NewReportsService,
            urlchannels := some NewUrlchannelsService }, none)

/-!
Pagination protocol (spec §4.1 step 4 and §8).
-/

/-- A list response as the pagination loop sees it: the page of items and the
optional continuation token (tokens are modelled as the next start index). -/
structure PageResponse (α : Type) where
  items : List α
  nextPageToken : Option Nat

/-- Modelled from the spec: the server side of pagination is not part of this
repository.  A server holding the finite item set `items` answers a fetch at
cursor `i` with the next `p` items; it returns a continuation token while more
items remain, and, when `echo` is set, also echoes a token on the exact final
page (the spec's "a token may be echoed by the server even when the next page
would be empty"), forcing one extra empty-page fetch. -/
def serverFetch (items : List α) (p : Nat) (echo : Bool) (i : Nat) : PageResponse α :=
  { items := (items.drop i).take p,
    nextPageToken :=
      if i + p < items.length ∨ (echo = true ∧ i + p = items.length ∧ i < items.length)
      then some (i + p) else none }

/-- Modelled from the spec: the caller's pagination loop — start without a
token, re-invoke the fetch with `pageToken` set to each returned continuation
token (the `PageToken` setter), stop after the first tokenless response.
Returns every response received, in order. -/
def paginate (items : List α) (p : Nat) (hp : 0 < p) (echo : Bool) (i : Nat) :
    List (PageResponse α) :=
  if hcond : i + p < items.length ∨ (echo = true ∧ i + p = items.length ∧ i < items.length) then
    serverFetch items p echo i :: paginate items p hp echo (i + p)
  else
    [serverFetch items p echo i]
termination_by items.length - i
decreasing_by
  rcases hcond with h | ⟨_, h, _⟩ <;> omega

/-!
Setter calls as data, for quantifying over "every combination of optional
modifiers set on the call object before executing the request".
-/

/-- One optional-modifier setter invocation on an AdclientsListCall. -/
inductive AdclientsListOp where
  | maxResults (v : Int)
  | pageToken (v : String)
  | fields (v : String)
  | ifNoneMatch (v : String)

/-- The `opt_` key the setter writes. -/
def AdclientsListOp.key : AdclientsListOp → String
  | .maxResults _ => "maxResults"
  | .pageToken _ => "pageToken"
  | .fields _ => "fields"
  | .ifNoneMatch _ => "ifNoneMatch"

/-- The value the setter stores. -/
def AdclientsListOp.val : AdclientsListOp → GoValue
  | .maxResults v => .int v
  | .pageToken v => .str v
  | .fields v => .str v
  | .ifNoneMatch v => .str v

/-- Run one setter on the call object. -/
def AdclientsListCall.applyOp (c : AdclientsListCall) : AdclientsListOp → AdclientsListCall
  | .maxResults v => c.MaxResults v
  | .pageToken v => c.PageToken v
  | .fields v => c.Fields v
  | .ifNoneMatch v => c.IfNoneMatch v

/-- Run a sequence of setters on the call object, left to right. -/
def AdclientsListCall.applyOps (c : AdclientsListCall) (ops : List AdclientsListOp) :
    AdclientsListCall :=
  ops.foldl AdclientsListCall.applyOp c

/-- One optional-modifier setter invocation on an AdunitsListCall. -/
inductive AdunitsListOp where
  | includeInactive (v : Bool)
  | maxResults (v : Int)
  | pageToken (v : String)
  | fields (v : String)
  | ifNoneMatch (v : String)

/-- The `opt_` key the setter writes. -/
def AdunitsListOp.key : AdunitsListOp → String
  | .includeInactive _ => "includeInactive"
  | .maxResults _ => "maxResults"
  | .pageToken _ => "pageToken"
  | .fields _ => "fields"
  | .ifNoneMatch _ => "ifNoneMatch"

/-- The value the setter stores. -/
def AdunitsListOp.val : AdunitsListOp → GoValue
  | .includeInactive v => .bool v
  | .maxResults v => .int v
  | .pageToken v => .str v
  | .fields v => .str v
  | .ifNoneMatch v => .str v

/-- Run one setter on the call object. -/
def AdunitsListCall.applyOp (c : AdunitsListCall) : AdunitsListOp → AdunitsListCall
  | .includeInactive v => c.IncludeInactive v
  | .maxResults v => c.MaxResults v
  | .pageToken v => c.PageToken v
  | .fields v => c.Fields v
  | .ifNoneMatch v => c.IfNoneMatch v

/-- Run a sequence of setters on the call object, left to right. -/
def AdunitsListCall.applyOps (c : AdunitsListCall) (ops : List AdunitsListOp) :
    AdunitsListCall :=
  ops.foldl AdunitsListCall.applyOp c

/-- One optional-modifier setter invocation on a ReportsGenerateCall. -/
inductive ReportsGenerateOp where
  | dimension (v : String)
  | filter (v : String)
  | locale (v : String)
  | maxResults (v : Int)
  | metric (v : String)
  | sort (v : String)
  | startIndex (v : Int)
  | fields (v : String)
  | ifNoneMatch (v : String)

/-- The `opt_` key the setter writes. -/
def ReportsGenerateOp.key : ReportsGenerateOp → String
  | .dimension _ => "dimension"
  | .filter _ => "filter"
  | .locale _ => "locale"
  | .maxResults _ => "maxResults"
  | .metric _ => "metric"
  | .sort _ => "sort"
  | .startIndex _ => "startIndex"
  | .fields _ => "fields"
  | .ifNoneMatch _ => "ifNoneMatch"

/-- The value the setter stores. -/
def ReportsGenerateOp.val : ReportsGenerateOp → GoValue
  | .dimension v => .str v
  | .filter v => .str v
  | .locale v => .str v
  | .maxResults v => .int v
  | .metric v => .str v
  | .sort v => .str v
  | .startIndex v => .int v
  | .fields v => .str v
  | .ifNoneMatch v => .str v

/-- Run one setter on the call object. -/
def ReportsGenerateCall.applyOp (c : ReportsGenerateCall) : ReportsGenerateOp → ReportsGenerateCall
  | .dimension v => c.Dimension v
  | .filter v => c.Filter v
  | .locale v => c.Locale v
  | .maxResults v => c.MaxResults v
  | .metric v => c.Metric v
  | .sort v => c.Sort v
  | .startIndex v => c.StartIndex v
  | .fields v => c.Fields v
  | .ifNoneMatch v => c.IfNoneMatch v

/-- Run a sequence of setters on the call object, left to right. -/
def ReportsGenerateCall.applyOps (c : ReportsGenerateCall) (ops : List ReportsGenerateOp) :
    ReportsGenerateCall :=
  ops.foldl ReportsGenerateCall.applyOp c

/-- The Report cell-count invariant stated by the spec: every data row and
both summary rows have as many cells as there are headers. -/
def reportCellCountsOk (r : Report) : Bool :=
  r.rows.all (fun row => row.length == r.headers.length)
  && (r.averages.length == r.headers.length)
  && (r.totals.length == r.headers.length)

end AdExchange

namespace Govmomi

/-!
Shallow embedding of the vendored govmomi `Datastore` fragment
(`src/vendor/github.com/vmware/govmomi/object/datastore.go`).
-/

/-- Go `path.Base`: strip trailing slashes, then keep everything after the
last slash; "" maps to "." and an all-slash path to "/". -/
def pathBase (s : String) : String :=
  if s = "" then "."
  else
    let l := (s.toList.reverse.dropWhile (fun c => c = '/')).reverse
    let b := (l.reverse.takeWhile (fun c => c ≠ '/')).reverse
    if b = [] then "/" else String.mk b

/-- type Datastore (only `InventoryPath` matters to `Name` and `Path`). -/
structure Datastore where
  inventoryPath : String

/-- Datastore.Name. -/
def Datastore.name (d : Datastore) : String := pathBase d.inventoryPath

/-- Datastore.Path; the `panic("expected non-empty name")` branch is modelled
as `none`. -/
def Datastore.path (d : Datastore) (p : String) : Option String :=
  let name := d.name
  if name = "" then none
  else some ("[" ++ name ++ "] " ++ p)

end Govmomi

/-!
Helper lemmas about the Go map model.
-/

namespace AdExchange

theorem mapLookup_filter_ne (m : List (String × α)) (k k' : String) (h : k ≠ k') :
    mapLookup (m.filter (fun p => !(p.1 == k'))) k = mapLookup m k := by
  induction m with
  | nil => rfl
  | cons p t ih =>
    by_cases hp : p.1 = k'
    · have h1 : (p.1 == k') = true := beq_iff_eq.mpr hp
      have h2 : (p.1 == k) = false := by
        rw [hp]; exact beq_eq_false_iff_ne.mpr (Ne.symm h)
      simp only [List.filter_cons, h1, Bool.not_true, if_neg Bool.false_ne_true,
        mapLookup, h2, ih]
    · have h1 : (p.1 == k') = false := beq_eq_false_iff_ne.mpr hp
      cases hk : (p.1 == k) with
      | true =>
        simp only [List.filter_cons, h1, Bool.not_false, if_pos rfl, mapLookup, hk, if_true]
      | false =>
        simp only [List.filter_cons, h1, Bool.not_false, if_pos rfl, mapLookup, hk,
          if_neg Bool.false_ne_true, ih]

theorem mapLookup_append_single_ne (m : List (String × α)) (k k' : String) (v : α)
    (h : k ≠ k') : mapLookup (m ++ [(k', v)]) k = mapLookup m k := by
  induction m with
  | nil =>
    simp [mapLookup, beq_eq_false_iff_ne.mpr (Ne.symm h)]
  | cons p t ih =>
    rw [List.cons_append]
    cases hp : (p.1 == k) with
    | true => simp only [mapLookup, hp, if_true]
    | false => simp only [mapLookup, hp, if_neg Bool.false_ne_true, ih]

theorem mapLookup_mapSet_self (m : List (String × α)) (k : String) (v : α) :
    mapLookup (mapSet m k v) k = some v := by
  unfold mapSet
  induction m with
  | nil =>
    simp [mapLookup]
  | cons p t ih =>
    rw [List.filter_cons]
    cases hp : (p.1 == k) with
    | true =>
      simp only [hp, Bool.not_true, if_neg Bool.false_ne_true]
      exact ih
    | false =>
      simp only [hp, Bool.not_false, if_pos rfl, List.cons_append, mapLookup,
        if_neg Bool.false_ne_true]
      exact ih

theorem mapLookup_mapSet_ne (m : List (String × α)) (k k' : String) (v : α) (h : k ≠ k') :
    mapLookup (mapSet m k' v) k = mapLookup m k := by
  unfold mapSet
  rw [mapLookup_append_single_ne _ _ _ _ h]
  exact mapLookup_filter_ne m k k' h

theorem mapContains_nil (k : String) : mapContains ([] : List (String × α)) k = false := rfl

theorem mapContains_mapSet (m : List (String × α)) (k k' : String) (v : α) :
    mapContains (mapSet m k' v) k = ((k' == k) || mapContains m k) := by
  by_cases h : k = k'
  · subst h
    simp [mapContains, mapLookup_mapSet_self]
  · have : (k' == k) = false := beq_eq_false_iff_ne.mpr (Ne.symm h)
    simp [mapContains, mapLookup_mapSet_ne m k k' v h, this]

theorem mapLookup_append (m₁ m₂ : List (String × α)) (k : String) :
    mapLookup (m₁ ++ m₂) k
      = (match mapLookup m₁ k with
         | some v => some v
         | none => mapLookup m₂ k) := by
  induction m₁ with
  | nil => rfl
  | cons p t ih =>
    rw [List.cons_append]
    cases hp : (p.1 == k) with
    | true => simp only [mapLookup, hp, if_true]
    | false => simp only [mapLookup, hp, if_neg Bool.false_ne_true, ih]

theorem mapContains_setIfPresent (params : List (String × String))
    (opt : List (String × GoValue)) (key k : String) :
    mapContains (setIfPresent params opt key) k
      = (((key == k) && mapContains opt key) || mapContains params k) := by
  unfold setIfPresent
  cases h : mapLookup opt key with
  | none => simp [mapContains, h]
  | some v =>
    rw [mapContains_mapSet]
    have hc : mapContains opt key = true := by simp [mapContains, h]
    rw [hc, Bool.and_true]

theorem mapLookup_setIfPresent_ne (params : List (String × String))
    (opt : List (String × GoValue)) (key k : String) (h : k ≠ key) :
    mapLookup (setIfPresent params opt key) k = mapLookup params k := by
  unfold setIfPresent
  cases hl : mapLookup opt key with
  | none => rfl
  | some v => exact mapLookup_mapSet_ne _ _ _ _ h

theorem mapLookup_setIfPresent_self (params : List (String × String))
    (opt : List (String × GoValue)) (key : String) :
    mapLookup (setIfPresent params opt key) key
      = (match mapLookup opt key with
         | some v => some (formatV v)
         | none => mapLookup params key) := by
  unfold setIfPresent
  cases hl : mapLookup opt key with
  | none => rfl
  | some v => simp [mapLookup_mapSet_self]

theorem AdclientsListCall.opt_applyOp_adclients (c : AdclientsListCall) (op : AdclientsListOp) :
    (c.applyOp op).opt_ = mapSet c.opt_ op.key op.val := by
  cases op <;> rfl

theorem AdclientsListCall.mapContains_applyOps_adclients (c : AdclientsListCall)
    (ops : List AdclientsListOp) (k : String) :
    mapContains (c.applyOps ops).opt_ k
      = (ops.any (fun op => op.key == k) || mapContains c.opt_ k) := by
  induction ops generalizing c with
  | nil => simp [AdclientsListCall.applyOps]
  | cons op t ih =>
    show mapContains ((c.applyOp op).applyOps t).opt_ k = _
    rw [ih, AdclientsListCall.opt_applyOp_adclients, mapContains_mapSet, List.any_cons]
    cases (op.key == k) <;> cases t.any (fun op => op.key == k) <;>
      cases mapContains c.opt_ k <;> simp

theorem AdunitsListCall.opt_applyOp_adunits (c : AdunitsListCall) (op : AdunitsListOp) :
    (c.applyOp op).opt_ = mapSet c.opt_ op.key op.val := by
  cases op <;> rfl

theorem AdunitsListCall.mapContains_applyOps_adunits (c : AdunitsListCall)
    (ops : List AdunitsListOp) (k : String) :
    mapContains (c.applyOps ops).opt_ k
      = (ops.any (fun op => op.key == k) || mapContains c.opt_ k) := by
  induction ops generalizing c with
  | nil => simp [AdunitsListCall.applyOps]
  | cons op t ih =>
    show mapContains ((c.applyOp op).applyOps t).opt_ k = _
    rw [ih, AdunitsListCall.opt_applyOp_adunits, mapContains_mapSet, List.any_cons]
    cases (op.key == k) <;> cases t.any (fun op => op.key == k) <;>
      cases mapContains c.opt_ k <;> simp

theorem ReportsGenerateCall.opt_applyOp_reports (c : ReportsGenerateCall) (op : ReportsGenerateOp) :
    (c.applyOp op).opt_ = mapSet c.opt_ op.key op.val := by
  cases op <;> rfl

theorem ReportsGenerateCall.mapContains_applyOps_reports (c : ReportsGenerateCall)
    (ops : List ReportsGenerateOp) (k : String) :
    mapContains (c.applyOps ops).opt_ k
      = (ops.any (fun op => op.key == k) || mapContains c.opt_ k) := by
  induction ops generalizing c with
  | nil => simp [ReportsGenerateCall.applyOps]
  | cons op t ih =>
    show mapContains ((c.applyOp op).applyOps t).opt_ k = _
    rw [ih, ReportsGenerateCall.opt_applyOp_reports, mapContains_mapSet, List.any_cons]
    cases (op.key == k) <;> cases t.any (fun op => op.key == k) <;>
      cases mapContains c.opt_ k <;> simp

theorem AdclientsListCall.params_contains_adclients (c : AdclientsListCall) (alt k : String) :
    mapContains (c.doRequestParams alt) k
      = ((("fields" == k) && mapContains c.opt_ "fields")
         || ((("pageToken" == k) && mapContains c.opt_ "pageToken")
         || ((("maxResults" == k) && mapContains c.opt_ "maxResults")
         || (("alt" == k) || false)))) := by
  simp only [AdclientsListCall.doRequestParams]
  rw [mapContains_setIfPresent, mapContains_setIfPresent, mapContains_setIfPresent,
    mapContains_mapSet, mapContains_nil]

theorem AdunitsListCall.params_contains_adunits (c : AdunitsListCall) (alt k : String) :
    mapContains (c.doRequestParams alt) k
      = ((("fields" == k) && mapContains c.opt_ "fields")
         || ((("pageToken" == k) && mapContains c.opt_ "pageToken")
         || ((("maxResults" == k) && mapContains c.opt_ "maxResults")
         || ((("includeInactive" == k) && mapContains c.opt_ "includeInactive")
         || (("alt" == k) || false))))) := by
  simp only [AdunitsListCall.doRequestParams]
  rw [mapContains_setIfPresent, mapContains_setIfPresent, mapContains_setIfPresent,
    mapContains_setIfPresent, mapContains_mapSet, mapContains_nil]

theorem ReportsGenerateCall.params_contains_reports (c : ReportsGenerateCall) (alt k : String) :
    mapContains (c.doRequestParams alt) k
      = ((("fields" == k) && mapContains c.opt_ "fields")
         || ((("startIndex" == k) && mapContains c.opt_ "startIndex")
         || ((("sort" == k) && mapContains c.opt_ "sort")
         || ((("metric" == k) && mapContains c.opt_ "metric")
         || ((("maxResults" == k) && mapContains c.opt_ "maxResults")
         || ((("locale" == k) && mapContains c.opt_ "locale")
         || ((("filter" == k) && mapContains c.opt_ "filter")
         || ((("dimension" == k) && mapContains c.opt_ "dimension")
         || (("startDate" == k)
         || (("endDate" == k)
         || (("alt" == k) || false))))))))))) := by
  simp only [ReportsGenerateCall.doRequestParams]
  rw [mapContains_setIfPresent, mapContains_setIfPresent, mapContains_setIfPresent,
    mapContains_setIfPresent, mapContains_setIfPresent, mapContains_setIfPresent,
    mapContains_setIfPresent, mapContains_setIfPresent,
    mapContains_mapSet, mapContains_mapSet, mapContains_mapSet, mapContains_nil]

end AdExchange

/-!
Claim theorems.
-/

open AdExchange

/-- C9: `New(client)` returns a non-nil error iff the supplied HTTP client is
nil; otherwise it returns a Service whose BasePath is the fixed base URL and
whose five sub-services — and their nested sub-services — are all non-nil. -/
theorem c9_new_service_wiring :
    New none = (none, some "client is nil")
    ∧ ∀ (cl : HttpClient),
        (New (some cl)).2 = none
        ∧ ((New (some cl)).1.map (fun s =>
             (s.basePath == AdExchange.basePath)
             && s.adclients.isSome && s.urlchannels.isSome
             && (match s.adunits with
                 | some au => au.customchannels.isSome
                 | none => false)
             && (match s.customchannels with
                 | some cc => cc.adunits.isSome
                 | none => false)
             && (match s.reports with
                 | some rp => rp.saved.isSome
                 | none => false)))
          = some true := by
  refine ⟨rfl, fun cl => ⟨rfl, ?_⟩⟩
  rfl

/-- C10: `Datastore.Path` panics (modelled as `none`) whenever the datastore's
name — the base of InventoryPath — is empty, and otherwise returns the string
"[name] path". -/
theorem c10_datastore_path (d : Govmomi.Datastore) (p : String) :
    (Govmomi.pathBase d.inventoryPath = "" → d.path p = none)
    ∧ (Govmomi.pathBase d.inventoryPath ≠ "" →
        d.path p = some ("[" ++ Govmomi.pathBase d.inventoryPath ++ "] " ++ p)) := by
  constructor <;> intro h <;>
    simp [Govmomi.Datastore.path, Govmomi.Datastore.name, h]

/-- C10 witness: on the inventory path "a/b" the name is "b" (non-empty) and
Path "f" is "[b] f". -/
theorem c10_datastore_path_witness :
    Govmomi.pathBase "a/b" ≠ ""
    ∧ Govmomi.Datastore.path ⟨"a/b"⟩ "f" = some "[b] f" := by
  refine ⟨by decide, ?_⟩
  have h := (c10_datastore_path ⟨"a/b"⟩ "f").2 (by decide)
  rw [h]
  decide

/-- C2: whenever the HTTP response has status 304, every modelled `Do` returns
a nil result and a googleapi.Error carrying the status code and the response
headers, independent of the response body (the body is never decoded). -/
theorem c2_not_modified (res : HttpResponse) (h : res.statusCode = 304) :
    AdclientsListCall.doCall (.response res)
      = { result := none, error := some (.apiError 304 res.header none), bodyClosed := true }
    ∧ AdunitsListCall.doCall (.response res)
      = { result := none, error := some (.apiError 304 res.header none), bodyClosed := true }
    ∧ ReportsGenerateCall.doCall (.response res)
      = { result := none, error := some (.apiError 304 res.header none), bodyClosed := true }
    ∧ ReportsSavedGenerateCall.doCall (.response res)
      = { result := none, error := some (.apiError 304 res.header none), bodyClosed := true } := by
  refine ⟨?_, ?_, ?_, ?_⟩ <;>
    simp [AdclientsListCall.doCall, AdunitsListCall.doCall,
      ReportsGenerateCall.doCall, ReportsSavedGenerateCall.doCall, h]

/-- C2 witness: a concrete 304 response with a non-empty body is mapped to the
NotModified-classified error and the body is ignored. -/
theorem c2_not_modified_witness :
    AdclientsListCall.doCall (.response ⟨304, [("ETag", "abc")], .str "ignored"⟩)
      = { result := none, error := some (.apiError 304 [("ETag", "abc")] none),
          bodyClosed := true } :=
  (c2_not_modified ⟨304, [("ETag", "abc")], .str "ignored"⟩ rfl).1

/-- C3 (failing input): on a 2xx response whose body is the JSON literal
`null`, `Decode(&ret)` sets the result pointer itself to nil and returns no
error, so `Do` returns a nil result AND a nil error — contradicting the
claim and the function's own doc comment that exactly one of the two is
non-nil. -/
theorem c3_null_body_breaks_exclusivity :
    (AdclientsListCall.doCall (.response ⟨200, [], .null⟩)).result = none
    ∧ (AdclientsListCall.doCall (.response ⟨200, [], .null⟩)).error = none
    ∧ (AdunitsListCall.doCall (.response ⟨200, [], .null⟩)).result = none
    ∧ (AdunitsListCall.doCall (.response ⟨200, [], .null⟩)).error = none := by
  refine ⟨rfl, rfl, rfl, rfl⟩

/-- C5 counterexample: passing 20000 to MaxResults serializes the value
"20000" into the query — strictly above the documented 10000 ceiling — so the
client performs no clamping. -/
theorem c5_max_results_not_clamped_counterexample :
    mapLookup ((AdclientsService.listCall.MaxResults 20000).doRequestParams "json")
        "maxResults" = some "20000"
    ∧ (10000 : Int) < 20000 := by
  constructor
  · decide
  · decide

/-- C5 amended: the maxResults modifier is serialized verbatim — the decimal
rendering of whatever int64 the caller passed — with no client-side clamping
(shown for the two modelled list calls). -/
theorem c5_max_results_serialized_verbatim :
    (∀ (v : Int) (alt : String),
      mapLookup ((AdclientsService.listCall.MaxResults v).doRequestParams alt) "maxResults"
        = some (toString v))
    ∧ (∀ (adClientId : String) (v : Int) (alt : String),
      mapLookup (((AdunitsService.listCall adClientId).MaxResults v).doRequestParams alt)
          "maxResults"
        = some (toString v)) := by
  constructor
  · intro v alt
    simp only [AdclientsListCall.doRequestParams]
    rw [mapLookup_setIfPresent_ne _ _ _ _ (by decide),
      mapLookup_setIfPresent_ne _ _ _ _ (by decide),
      mapLookup_setIfPresent_self]
    show (match mapLookup (mapSet [] "maxResults" (GoValue.int v)) "maxResults" with
          | some v => some (formatV v)
          | none => mapLookup (mapSet [] "alt" alt) "maxResults") = some (toString v)
    rw [mapLookup_mapSet_self]
    rfl
  · intro adClientId v alt
    simp only [AdunitsListCall.doRequestParams]
    rw [mapLookup_setIfPresent_ne _ _ _ _ (by decide),
      mapLookup_setIfPresent_ne _ _ _ _ (by decide),
      mapLookup_setIfPresent_self]
    show (match mapLookup (mapSet [] "maxResults" (GoValue.int v)) "maxResults" with
          | some v => some (formatV v)
          | none => mapLookup (setIfPresent (mapSet [] "alt" alt)
              (mapSet [] "maxResults" (GoValue.int v)) "includeInactive") "maxResults")
        = some (toString v)
    rw [mapLookup_mapSet_self]
    rfl

/-- C7: every modelled `Do` closes the response body on every exit path (2xx
success, decode failure, non-2xx error, and the 304 short-circuit), while
`Download` hands the still-open body to the caller on success and closes it
exactly when the media-response check fails. -/
theorem c7_body_lifecycle :
    (∀ (res : HttpResponse),
       (AdclientsListCall.doCall (.response res)).bodyClosed = true
       ∧ (AdunitsListCall.doCall (.response res)).bodyClosed = true
       ∧ (ReportsGenerateCall.doCall (.response res)).bodyClosed = true
       ∧ (ReportsSavedGenerateCall.doCall (.response res)).bodyClosed = true)
    ∧ (∀ (res : HttpResponse), 200 ≤ res.statusCode → res.statusCode ≤ 299 →
         ReportsGenerateCall.download (.response res) = (some res, none, false))
    ∧ (∀ (res : HttpResponse), ¬(200 ≤ res.statusCode ∧ res.statusCode ≤ 299) →
         ReportsGenerateCall.download (.response res)
           = (none, some (.apiError res.statusCode res.header (some res.body)), true)) := by
  refine ⟨fun res => ⟨?_, ?_, ?_, ?_⟩, fun res h1 h2 => ?_, fun res h => ?_⟩
  · simp only [AdclientsListCall.doCall]
    split
    · rfl
    · split
      · rfl
      · split <;> rfl
  · simp only [AdunitsListCall.doCall]
    split
    · rfl
    · split
      · rfl
      · split <;> rfl
  · simp only [ReportsGenerateCall.doCall]
    split
    · rfl
    · split
      · rfl
      · split <;> rfl
  · simp only [ReportsSavedGenerateCall.doCall]
    split
    · rfl
    · split
      · rfl
      · split <;> rfl
  · simp only [ReportsGenerateCall.download, checkMediaResponse]
    rw [if_pos ⟨h1, h2⟩]
  · simp only [ReportsGenerateCall.download, checkMediaResponse]
    rw [if_neg h]

/-- C7 witness: on a concrete 200 media response, Download returns the open
body; on a concrete 404, it closes the body and errors. -/
theorem c7_body_lifecycle_witness :
    ReportsGenerateCall.download (.response ⟨200, [], .null⟩)
      = (some ⟨200, [], .null⟩, none, false)
    ∧ ReportsGenerateCall.download (.response ⟨404, [], .null⟩)
      = (none, some (.apiError 404 [] (some .null)), true) :=
  ⟨c7_body_lifecycle.2.1 ⟨200, [], .null⟩ (by decide) (by decide),
   c7_body_lifecycle.2.2 ⟨404, [], .null⟩ (by decide)⟩

/-- C1: for the modelled list and report calls and every sequence of setter
invocations, the outgoing query contains a key for an optional modifier iff
the corresponding setter was invoked on the call object before the request was
built; modifiers never set are absent from the query. -/
theorem c1_optional_modifiers_iff_set :
    (∀ (ops : List AdclientsListOp) (alt : String),
      mapContains ((AdclientsService.listCall.applyOps ops).doRequestParams alt) "maxResults"
        = ops.any (fun op => op.key == "maxResults")
      ∧ mapContains ((AdclientsService.listCall.applyOps ops).doRequestParams alt) "pageToken"
        = ops.any (fun op => op.key == "pageToken")
      ∧ mapContains ((AdclientsService.listCall.applyOps ops).doRequestParams alt) "fields"
        = ops.any (fun op => op.key == "fields"))
    ∧ (∀ (adClientId : String) (ops : List AdunitsListOp) (alt : String),
      mapContains (((AdunitsService.listCall adClientId).applyOps ops).doRequestParams alt)
          "includeInactive"
        = ops.any (fun op => op.key == "includeInactive")
      ∧ mapContains (((AdunitsService.listCall adClientId).applyOps ops).doRequestParams alt)
          "maxResults"
        = ops.any (fun op => op.key == "maxResults")
      ∧ mapContains (((AdunitsService.listCall adClientId).applyOps ops).doRequestParams alt)
          "pageToken"
        = ops.any (fun op => op.key == "pageToken")
      ∧ mapContains (((AdunitsService.listCall adClientId).applyOps ops).doRequestParams alt)
          "fields"
        = ops.any (fun op => op.key == "fields"))
    ∧ (∀ (startDate endDate : String) (ops : List ReportsGenerateOp) (alt : String),
      mapContains (((ReportsService.generateCall startDate endDate).applyOps ops).doRequestParams
          alt) "dimension"
        = ops.any (fun op => op.key == "dimension")
      ∧ mapContains (((ReportsService.generateCall startDate endDate).applyOps ops).doRequestParams
          alt) "filter"
        = ops.any (fun op => op.key == "filter")
      ∧ mapContains (((ReportsService.generateCall startDate endDate).applyOps ops).doRequestParams
          alt) "locale"
        = ops.any (fun op => op.key == "locale")
      ∧ mapContains (((ReportsService.generateCall startDate endDate).applyOps ops).doRequestParams
          alt) "maxResults"
        = ops.any (fun op => op.key == "maxResults")
      ∧ mapContains (((ReportsService.generateCall startDate endDate).applyOps ops).doRequestParams
          alt) "metric"
        = ops.any (fun op => op.key == "metric")
      ∧ mapContains (((ReportsService.generateCall startDate endDate).applyOps ops).doRequestParams
          alt) "sort"
        = ops.any (fun op => op.key == "sort")
      ∧ mapContains (((ReportsService.generateCall startDate endDate).applyOps ops).doRequestParams
          alt) "startIndex"
        = ops.any (fun op => op.key == "startIndex")
      ∧ mapContains (((ReportsService.generateCall startDate endDate).applyOps ops).doRequestParams
          alt) "fields"
        = ops.any (fun op => op.key == "fields")) := by
  refine ⟨fun ops alt => ⟨?_, ?_, ?_⟩,
    fun adClientId ops alt => ⟨?_, ?_, ?_, ?_⟩,
    fun startDate endDate ops alt => ⟨?_, ?_, ?_, ?_, ?_, ?_, ?_, ?_⟩⟩
  all_goals first
    | (rw [AdclientsListCall.params_contains_adclients]
       simp [AdclientsListCall.mapContains_applyOps_adclients, AdclientsService.listCall, mapContains_nil])
    | (rw [AdunitsListCall.params_contains_adunits]
       simp [AdunitsListCall.mapContains_applyOps_adunits, AdunitsService.listCall, mapContains_nil])
    | (rw [ReportsGenerateCall.params_contains_reports]
       simp [ReportsGenerateCall.mapContains_applyOps_reports, ReportsService.generateCall,
         mapContains_nil])

/-- C4 counterexample: a 200 response whose body holds one header but a data
row and summary rows of two cells decodes successfully, and Do returns the
Report with mismatched cell counts — the client enforces no invariant. -/
theorem c4_report_invariant_counterexample :
    ((ReportsGenerateCall.doCall (.response ⟨200, [],
        Json.obj [("headers", .arr [.obj [("name", .str "CLICKS"),
                                          ("type", .str "METRIC_TALLY")]]),
                  ("rows", .arr [.arr [.str "a", .str "b"]]),
                  ("averages", .arr [.str "x", .str "y"]),
                  ("totals", .arr [.str "s", .str "t"])]⟩)).result.map
        reportCellCountsOk)
      = some false := by
  decide

/-- C4 amended: Do returns the decoded report verbatim (attaching only the
ServerResponse), so the cell-count invariant holds for the returned Report
exactly when the decoded response body satisfies it; the client itself
performs no validation. -/
theorem c4_report_returned_verbatim (res : HttpResponse) (rep : Report)
    (h2xx : 200 ≤ res.statusCode ∧ res.statusCode ≤ 299)
    (hdec : decodeReportPtr res.body = some (some rep)) :
    (ReportsGenerateCall.doCall (.response res)).result
        = some { rep with serverResponse := ⟨res.statusCode, res.header⟩ }
    ∧ (ReportsSavedGenerateCall.doCall (.response res)).result
        = some { rep with serverResponse := ⟨res.statusCode, res.header⟩ }
    ∧ reportCellCountsOk { rep with serverResponse := ⟨res.statusCode, res.header⟩ }
        = reportCellCountsOk rep := by
  have h304 : ¬ res.statusCode = 304 := by omega
  refine ⟨?_, ?_, rfl⟩ <;>
    simp [ReportsGenerateCall.doCall, ReportsSavedGenerateCall.doCall,
      h304, checkResponse, h2xx, hdec]

/-- C4 witness: a concrete 200 body with matching cell counts round-trips
through Do with the invariant intact. -/
theorem c4_report_returned_verbatim_witness :
    (ReportsGenerateCall.doCall (.response ⟨200, [],
        Json.obj [("headers", .arr [.obj [("name", .str "CLICKS")]]),
                  ("rows", .arr [.arr [.str "7"]]),
                  ("averages", .arr [.str "7"]),
                  ("totals", .arr [.str "7"])]⟩)).result
      = some { averages := ["7"], headers := [some ⟨"", "CLICKS", "", []⟩], kind := "",
               rows := [["7"]], totalMatchedRows := 0, totals := ["7"], warnings := [],
               serverResponse := ⟨200, []⟩, forceSendFields := [] }
    ∧ reportCellCountsOk { averages := ["7"], headers := [some ⟨"", "CLICKS", "", []⟩],
                           kind := "", rows := [["7"]], totalMatchedRows := 0,
                           totals := ["7"], warnings := [],
                           serverResponse := ⟨200, []⟩, forceSendFields := [] } = true :=
  ⟨(c4_report_returned_verbatim
      ⟨200, [], Json.obj [("headers", .arr [.obj [("name", .str "CLICKS")]]),
                          ("rows", .arr [.arr [.str "7"]]),
                          ("averages", .arr [.str "7"]),
                          ("totals", .arr [.str "7"])]⟩
      { averages := ["7"], headers := [some ⟨"", "CLICKS", "", []⟩], kind := "",
        rows := [["7"]], totalMatchedRows := 0, totals := ["7"], warnings := [],
        serverResponse := ⟨0, []⟩, forceSendFields := [] }
      (by decide) (by decide)).1,
   by decide⟩

theorem paginate_ne_nil (items : List α) (p : Nat) (hp : 0 < p) (echo : Bool) (i : Nat) :
    paginate items p hp echo i ≠ [] := by
  rw [paginate]
  split <;> simp

theorem getLast?_cons_of_ne_nil (a : α) (l : List α) (h : l ≠ []) :
    (a :: l).getLast? = l.getLast? := by
  cases l with
  | nil => exact absurd rfl h
  | cons b t => simp [List.getLast?_cons_cons]

theorem paginate_join (items : List α) (p : Nat) (hp : 0 < p) (echo : Bool) :
    ∀ (n i : Nat), items.length - i ≤ n →
      ((paginate items p hp echo i).map PageResponse.items).flatten = items.drop i := by
  intro n
  induction n with
  | zero =>
    intro i hi
    have hlen : items.length ≤ i := by omega
    have hcond : ¬(i + p < items.length
        ∨ (echo = true ∧ i + p = items.length ∧ i < items.length)) := by
      rintro (h | ⟨_, _, h⟩) <;> omega
    rw [paginate, dif_neg hcond]
    have hdrop : items.drop i = [] := List.drop_eq_nil_of_le hlen
    simp [serverFetch, hdrop]
  | succ n ih =>
    intro i hi
    by_cases hcond : i + p < items.length
        ∨ (echo = true ∧ i + p = items.length ∧ i < items.length)
    · rw [paginate, dif_pos hcond]
      have hi2 : items.length - (i + p) ≤ n := by
        rcases hcond with h | ⟨_, h, h2⟩ <;> omega
      rw [List.map_cons, List.flatten_cons, ih (i + p) hi2]
      show (items.drop i).take p ++ items.drop (i + p) = items.drop i
      rw [← List.drop_drop, List.take_append_drop]
    · rw [paginate, dif_neg hcond]
      have h1 : items.length ≤ i + p := by
        rcases Nat.lt_or_ge (i + p) items.length with h | h
        · exact absurd (Or.inl h) hcond
        · exact h
      simp only [List.map_cons, List.map_nil, List.flatten_cons, List.flatten_nil, List.append_nil]
      show (items.drop i).take p = items.drop i
      apply List.take_of_length_le
      simp only [List.length_drop]
      omega

theorem paginate_last_token (items : List α) (p : Nat) (hp : 0 < p) (echo : Bool) :
    ∀ (n i : Nat), items.length - i ≤ n →
      ∃ r, (paginate items p hp echo i).getLast? = some r ∧ r.nextPageToken = none := by
  intro n
  induction n with
  | zero =>
    intro i hi
    have hcond : ¬(i + p < items.length
        ∨ (echo = true ∧ i + p = items.length ∧ i < items.length)) := by
      rintro (h | ⟨_, _, h⟩) <;> omega
    refine ⟨serverFetch items p echo i, ?_, ?_⟩
    · rw [paginate, dif_neg hcond]
      rfl
    · simp only [serverFetch]
      rw [if_neg hcond]
  | succ n ih =>
    intro i hi
    by_cases hcond : i + p < items.length
        ∨ (echo = true ∧ i + p = items.length ∧ i < items.length)
    · obtain ⟨r, hr, ht⟩ := ih (i + p) (by rcases hcond with h | ⟨_, h, h2⟩ <;> omega)
      refine ⟨r, ?_, ht⟩
      rw [paginate, dif_pos hcond,
        getLast?_cons_of_ne_nil _ _ (paginate_ne_nil items p hp echo (i + p)), hr]
    · refine ⟨serverFetch items p echo i, ?_, ?_⟩
      · rw [paginate, dif_neg hcond]
        rfl
      · simp only [serverFetch]
        rw [if_neg hcond]

/-- C6: for a server holding a finite item set, the pagination loop — start
without a token, follow each returned continuation token, stop at the first
tokenless response — terminates, yields every item exactly once in order
(concatenating the pages gives back the item set), and its final response is
tokenless; a full page bearing an echoed token is still followed by one more
(empty) fetch. -/
theorem c6_pagination_exhaustive (α : Type) (items : List α) (p : Nat) (hp : 0 < p)
    (echo : Bool) :
    ((paginate items p hp echo 0).map PageResponse.items).flatten = items
    ∧ paginate items p hp echo 0 ≠ []
    ∧ ∃ r, (paginate items p hp echo 0).getLast? = some r ∧ r.nextPageToken = none := by
  refine ⟨?_, paginate_ne_nil items p hp echo 0,
    paginate_last_token items p hp echo items.length 0 (by omega)⟩
  have h := paginate_join items p hp echo items.length 0 (by omega)
  simpa using h

/-- C6 witness: three items fetched with page size 2 and an echoed final
token — the loop returns pages [10,20], [30], [] and stops on the tokenless
empty page, having yielded each item exactly once. -/
theorem c6_pagination_exhaustive_witness :
    0 < 2
    ∧ (((paginate [10, 20, 30] 2 (by decide) true 0).map PageResponse.items).flatten
        = [10, 20, 30]
      ∧ paginate [10, 20, 30] 2 (by decide) true 0 ≠ []
      ∧ ∃ r, (paginate [10, 20, 30] 2 (by decide) true 0).getLast? = some r
          ∧ r.nextPageToken = none) :=
  ⟨by decide, c6_pagination_exhaustive Nat [10, 20, 30] 2 (by decide) true⟩

theorem mapLookup_emitStr_self (force : List String) (goName k : String) (v : String) :
    mapLookup (emitStr force goName k v) k
      = if v ≠ "" ∨ force.contains goName then some (.str v) else none := by
  unfold emitStr
  by_cases h : (v ≠ "" ∨ force.contains goName)
  · rw [if_pos h, if_pos h]
    simp [mapLookup]
  · rw [if_neg h, if_neg h]
    rfl

theorem mapLookup_emitStr_ne (force : List String) (goName k k' : String) (v : String)
    (h : k' ≠ k) : mapLookup (emitStr force goName k v) k' = none := by
  unfold emitStr
  split
  · simp [mapLookup, beq_eq_false_iff_ne.mpr (Ne.symm h)]
  · rfl

theorem mapLookup_emitBool_self (force : List String) (goName k : String) (v : Bool) :
    mapLookup (emitBool force goName k v) k
      = if v = true ∨ force.contains goName then some (.bool v) else none := by
  unfold emitBool
  by_cases h : (v = true ∨ force.contains goName)
  · rw [if_pos h, if_pos h]
    simp [mapLookup]
  · rw [if_neg h, if_neg h]
    rfl

theorem mapLookup_emitBool_ne (force : List String) (goName k k' : String) (v : Bool)
    (h : k' ≠ k) : mapLookup (emitBool force goName k v) k' = none := by
  unfold emitBool
  split
  · simp [mapLookup, beq_eq_false_iff_ne.mpr (Ne.symm h)]
  · rfl

theorem decodeAdClient_encode (a : AdClient) :
    decodeAdClient (encodeAdClient a) = some { a with forceSendFields := [] } := by
  unfold encodeAdClient decodeAdClient
  by_cases h1 : (a.arcOptIn = true ∨ a.forceSendFields.contains "ArcOptIn") <;>
  by_cases h2 : (a.id ≠ "" ∨ a.forceSendFields.contains "Id") <;>
  by_cases h3 : (a.kind ≠ "" ∨ a.forceSendFields.contains "Kind") <;>
  by_cases h4 : (a.productCode ≠ "" ∨ a.forceSendFields.contains "ProductCode") <;>
  by_cases h5 : (a.supportsReporting = true ∨ a.forceSendFields.contains "SupportsReporting") <;>
    simp_all [emitStr, emitBool, mapLookup, Json.getBoolField, Json.getStringField]

theorem decodeAdClientPtr_encodePtr (x : Option AdClient) :
    decodeAdClientPtr (encodeAdClientPtr x)
      = some (x.map fun a => { a with forceSendFields := [] }) := by
  cases x with
  | none => rfl
  | some a =>
    show (decodeAdClient (encodeAdClient a)).map some = _
    rw [decodeAdClient_encode]
    rfl

theorem decodeList_encodeItems (xs : List (Option AdClient)) :
    decodeList decodeAdClientPtr (xs.map encodeAdClientPtr)
      = some (xs.map fun x => x.map fun a => { a with forceSendFields := [] }) := by
  induction xs with
  | nil => rfl
  | cons x t ih =>
    simp [decodeList, decodeAdClientPtr_encodePtr, ih]

theorem decodeAdClient_fsf (j : Json) (a : AdClient) (h : decodeAdClient j = some a) :
    a.forceSendFields = [] := by
  cases j with
  | obj fs =>
    simp only [decodeAdClient, bind, Option.bind_eq_some] at h
    obtain ⟨_, _, _, _, _, _, _, _, _, _, he⟩ := h
    cases he
    rfl
  | null => exact absurd h (by simp [decodeAdClient])
  | bool b => exact absurd h (by simp [decodeAdClient])
  | num n => exact absurd h (by simp [decodeAdClient])
  | str s => exact absurd h (by simp [decodeAdClient])
  | arr es => exact absurd h (by simp [decodeAdClient])

theorem decodeAdClientPtr_norm (j : Json) (x : Option AdClient)
    (h : decodeAdClientPtr j = some x) :
    x.map (fun a => { a with forceSendFields := [] }) = x := by
  cases j with
  | null =>
    cases h
    rfl
  | obj fs =>
    simp only [decodeAdClientPtr, Option.map_eq_some'] at h
    obtain ⟨a2, ha, he⟩ := h
    subst he
    have hf := decodeAdClient_fsf _ _ ha
    have hsame : ({ a2 with forceSendFields := [] } : AdClient) = a2 := by
      cases a2
      simp_all
    simp [hsame]
  | bool b => simp [decodeAdClientPtr, decodeAdClient] at h
  | num n => simp [decodeAdClientPtr, decodeAdClient] at h
  | str s => simp [decodeAdClientPtr, decodeAdClient] at h
  | arr es => simp [decodeAdClientPtr, decodeAdClient] at h

theorem decodeList_norm (es : List Json) (xs : List (Option AdClient))
    (h : decodeList decodeAdClientPtr es = some xs) :
    xs.map (fun x => x.map fun a => { a with forceSendFields := [] }) = xs := by
  induction es generalizing xs with
  | nil =>
    cases h
    rfl
  | cons e t ih =>
    simp only [decodeList, bind, Option.bind_eq_some] at h
    obtain ⟨x, hx, rest, hrest, he⟩ := h
    cases he
    simp only [List.map_cons, decodeAdClientPtr_norm e x hx, ih rest hrest]

theorem decodeAdClients_norm (j : Json) (c : AdClients) (h : decodeAdClients j = some c) :
    c.forceSendFields = [] ∧ c.serverResponse = ⟨0, []⟩
    ∧ c.items.map (fun x => x.map fun a => { a with forceSendFields := [] }) = c.items := by
  cases j with
  | null => exact absurd h (by simp [decodeAdClients])
  | bool b => exact absurd h (by simp [decodeAdClients])
  | num n => exact absurd h (by simp [decodeAdClients])
  | str s => exact absurd h (by simp [decodeAdClients])
  | arr es => exact absurd h (by simp [decodeAdClients])
  | obj fs =>
  simp only [decodeAdClients, bind, Option.bind_eq_some] at h
  obtain ⟨etag, hetag, items, hitems, kind, hkind, npt, hnpt, he⟩ := h
  cases he
  refine ⟨rfl, rfl, ?_⟩
  show items.map (fun x => x.map fun a => { a with forceSendFields := [] }) = items
  revert hitems
  cases hl : mapLookup fs "items" with
  | none =>
    intro hitems
    cases hitems
    rfl
  | some jv =>
    cases jv with
    | null =>
      intro hitems
      cases hitems
      rfl
    | arr es => exact fun hitems => decodeList_norm es items hitems
    | bool b => intro hitems; exact absurd hitems (by simp)
    | num n => intro hitems; exact absurd hitems (by simp)
    | str s => intro hitems; exact absurd hitems (by simp)
    | obj fs2 => intro hitems; exact absurd hitems (by simp)

theorem decodeAdClients_encode (c : AdClients) :
    decodeAdClients (encodeAdClients c)
      = some { etag := c.etag,
               items := c.items.map (fun x => x.map fun a => { a with forceSendFields := [] }),
               kind := c.kind, nextPageToken := c.nextPageToken,
               serverResponse := ⟨0, []⟩, forceSendFields := [] } := by
  unfold encodeAdClients decodeAdClients
  by_cases h1 : (c.etag ≠ "" ∨ c.forceSendFields.contains "Etag") <;>
  by_cases h2 : (c.items ≠ [] ∨ c.forceSendFields.contains "Items") <;>
  by_cases h3 : (c.kind ≠ "" ∨ c.forceSendFields.contains "Kind") <;>
  by_cases h4 : (c.nextPageToken ≠ "" ∨ c.forceSendFields.contains "NextPageToken") <;>
    simp_all [emitStr, mapLookup, Json.getStringField, decodeList_encodeItems]

/-- C8: decoding an AdClients collection from JSON, re-encoding it via
MarshalJSON, and decoding again yields the same collection — in particular the
same items in the same order (so the same count). -/
theorem c8_adclients_roundtrip (j : Json) (c : AdClients)
    (h : decodeAdClients j = some c) :
    decodeAdClients (encodeAdClients c) = some c := by
  rw [decodeAdClients_encode c]
  obtain ⟨hfsf, hsr, hitems⟩ := decodeAdClients_norm j c h
  cases c
  simp_all

/-- C8 witness: a collection with two items (one a nil pointer) decodes,
re-encodes, and decodes back to itself. -/
theorem c8_adclients_roundtrip_witness :
    decodeAdClients (Json.obj [("etag", .str "E"),
        ("items", .arr [.obj [("id", .str "a")], .null]),
        ("nextPageToken", .str "T")])
      = some { etag := "E",
               items := [some { arcOptIn := false, id := "a", kind := "", productCode := "",
                                supportsReporting := false, forceSendFields := [] }, none],
               kind := "", nextPageToken := "T",
               serverResponse := ⟨0, []⟩, forceSendFields := [] }
    ∧ decodeAdClients (encodeAdClients
        { etag := "E",
          items := [some { arcOptIn := false, id := "a", kind := "", productCode := "",
                           supportsReporting := false, forceSendFields := [] }, none],
          kind := "", nextPageToken := "T",
          serverResponse := ⟨0, []⟩, forceSendFields := [] })
      = some { etag := "E",
               items := [some { arcOptIn := false, id := "a", kind := "", productCode := "",
                                supportsReporting := false, forceSendFields := [] }, none],
               kind := "", nextPageToken := "T",
               serverResponse := ⟨0, []⟩, forceSendFields := [] } :=
  ⟨by decide,
   c8_adclients_roundtrip (Json.obj [("etag", .str "E"),
        ("items", .arr [.obj [("id", .str "a")], .null]),
        ("nextPageToken", .str "T")])
      { etag := "E",
        items := [some { arcOptIn := false, id := "a", kind := "", productCode := "",
                         supportsReporting := false, forceSendFields := [] }, none],
        kind := "", nextPageToken := "T",
        serverResponse := ⟨0, []⟩, forceSendFields := [] }
      (by decide)⟩
